import Mathlib

/-!
Shallow embedding of the hierarchical configuration store of
`src/core/libqutim/config.cpp` (qutIM).  QVariant trees are modelled by
`Variant`, `ConfigAtom` follows the tagged-union node of the source
(payload plus a constant read-only flag), and the cursor, source, saver
and cache machinery is embedded as explicit state passing.  `Q_ASSERT`
failures and null-pointer dereferences are modelled as `Option.none`
(the spec treats them as fail-fast programming errors).  QMap is a
key-ordered map in Qt; it is modelled here by an association list with
unique keys — none of the verified properties observes the iteration
order.  Scalars are modelled by `String`; a valid QVariant scalar is
never the invalid (null) QVariant in this model.
-/

/-- A tree value (`QVariant` restricted to the shapes the store round-trips):
map, list, scalar or null (the invalid QVariant). -/
inductive Variant where
  | null : Variant
  | scalar (s : String) : Variant
  | vmap (entries : List (String × Variant)) : Variant
  | vlist (items : List Variant) : Variant

/-- `QVariant::isNull` on the materialized values of this model. -/
def Variant.isNull : Variant → Bool
  | .null => true
  | _ => false

mutual
/-- Structural equality of tree values (`QVariant::operator==`). -/
def Variant.beq : Variant → Variant → Bool
  | .null, .null => true
  | .scalar s, .scalar t => s == t
  | .vmap es, .vmap fs => beqEntries es fs
  | .vlist xs, .vlist ys => beqItems xs ys
  | _, _ => false

def beqEntries : List (String × Variant) → List (String × Variant) → Bool
  | [], [] => true
  | (k, v) :: r, (k', v') :: r' => k == k' && v.beq v' && beqEntries r r'
  | _, _ => false

def beqItems : List Variant → List Variant → Bool
  | [], [] => true
  | v :: r, v' :: r' => v.beq v' && beqItems r r'
  | _, _ => false
end

mutual
theorem Variant.beq_refl : (v : Variant) → v.beq v = true
  | .null => rfl
  | .scalar s => by simp [Variant.beq]
  | .vmap es => by simp [Variant.beq, beqEntries_refl es]
  | .vlist xs => by simp [Variant.beq, beqItems_refl xs]

theorem beqEntries_refl : (es : List (String × Variant)) → beqEntries es es = true
  | [] => rfl
  | (k, v) :: r => by simp [beqEntries, Variant.beq_refl v, beqEntries_refl r]

theorem beqItems_refl : (xs : List Variant) → beqItems xs xs = true
  | [] => rfl
  | v :: r => by simp [beqItems, Variant.beq_refl v, beqItems_refl r]
end

mutual
theorem Variant.eq_of_beq : {v w : Variant} → v.beq w = true → v = w
  | .null, .null, _ => rfl
  | .scalar s, .scalar t, h => by
    simp [Variant.beq] at h; simp [h]
  | .vmap es, .vmap fs, h => by
    simp only [Variant.beq] at h
    simp [eqEntries_of_beq h]
  | .vlist xs, .vlist ys, h => by
    simp only [Variant.beq] at h
    simp [eqItems_of_beq h]

theorem eqEntries_of_beq : {es fs : List (String × Variant)} → beqEntries es fs = true → es = fs
  | [], [], _ => rfl
  | (k, v) :: r, (k', v') :: r', h => by
    simp only [beqEntries, Bool.and_eq_true, beq_iff_eq] at h
    obtain ⟨⟨hk, hv⟩, hr⟩ := h
    simp [hk, Variant.eq_of_beq hv, eqEntries_of_beq hr]

theorem eqItems_of_beq : {xs ys : List Variant} → beqItems xs ys = true → xs = ys
  | [], [], _ => rfl
  | v :: r, v' :: r', h => by
    simp only [beqItems, Bool.and_eq_true] at h
    obtain ⟨hv, hr⟩ := h
    simp [Variant.eq_of_beq hv, eqItems_of_beq hr]
end

instance : DecidableEq Variant := fun v w =>
  if h : v.beq w = true then .isTrue (Variant.eq_of_beq h)
  else .isFalse (fun he => h (he ▸ Variant.beq_refl v))

/-- `ConfigAtom` (config.cpp:48): a tagged union `{List, Map, Value, Null}`
with a constant `m_readOnly` flag fixed at construction. -/
inductive ConfigAtom where
  | nullA (ro : Bool) : ConfigAtom
  | valueA (ro : Bool) (s : String) : ConfigAtom
  | mapA (ro : Bool) (entries : List (String × ConfigAtom)) : ConfigAtom
  | listA (ro : Bool) (items : List ConfigAtom) : ConfigAtom

namespace ConfigAtom

/-- `ConfigAtom::isReadOnly` (config.cpp:104). -/
def readOnly : ConfigAtom → Bool
  | .nullA ro => ro
  | .valueA ro _ => ro
  | .mapA ro _ => ro
  | .listA ro _ => ro

/-- `ConfigAtom::isMap` (config.cpp:109). -/
def isMap : ConfigAtom → Bool
  | .mapA _ _ => true
  | _ => false

/-- `ConfigAtom::isList` (config.cpp:114). -/
def isList : ConfigAtom → Bool
  | .listA _ _ => true
  | _ => false

/-- `ConfigAtom::isValue` (config.cpp:119). -/
def isValue : ConfigAtom → Bool
  | .valueA _ _ => true
  | _ => false

/-- `ConfigAtom::isNull` (config.cpp:124). -/
def isNull : ConfigAtom → Bool
  | .nullA _ => true
  | _ => false

end ConfigAtom

mutual
/-- `ConfigAtom::toVariant` (config.cpp:134): materialize the node to a
tree value.  A Null node materializes to the invalid QVariant. -/
def ConfigAtom.toVariant : ConfigAtom → Variant
  | .nullA _ => .null
  | .valueA _ s => .scalar s
  | .mapA _ es => .vmap (toVariantEntries es)
  | .listA _ xs => .vlist (toVariantItems xs)

def toVariantEntries : List (String × ConfigAtom) → List (String × Variant)
  | [] => []
  | (k, a) :: rest => (k, a.toVariant) :: toVariantEntries rest

def toVariantItems : List ConfigAtom → List Variant
  | [] => []
  | a :: rest => a.toVariant :: toVariantItems rest
end

mutual
/-- `ConfigAtom::fromVariant` (config.cpp:72): build a node (whole subtree
carrying the given read-only flag) from a tree value. -/
def ConfigAtom.fromVariant : Variant → Bool → ConfigAtom
  | .null, ro => .nullA ro
  | .scalar s, ro => .valueA ro s
  | .vmap es, ro => .mapA ro (fromVariantEntries es ro)
  | .vlist xs, ro => .listA ro (fromVariantItems xs ro)

def fromVariantEntries : List (String × Variant) → Bool → List (String × ConfigAtom)
  | [], _ => []
  | (k, v) :: rest, ro => (k, ConfigAtom.fromVariant v ro) :: fromVariantEntries rest ro

def fromVariantItems : List Variant → Bool → List ConfigAtom
  | [], _ => []
  | v :: rest, ro => ConfigAtom.fromVariant v ro :: fromVariantItems rest ro
end

mutual
theorem ConfigAtom.toVariant_fromVariant :
    (v : Variant) → (ro : Bool) → (ConfigAtom.fromVariant v ro).toVariant = v
  | .null, _ => rfl
  | .scalar s, _ => rfl
  | .vmap es, ro => by
    simp [ConfigAtom.fromVariant, ConfigAtom.toVariant, entries_roundtrip es ro]
  | .vlist xs, ro => by
    simp [ConfigAtom.fromVariant, ConfigAtom.toVariant, items_roundtrip xs ro]

theorem entries_roundtrip : (es : List (String × Variant)) → (ro : Bool) →
    toVariantEntries (fromVariantEntries es ro) = es
  | [], _ => rfl
  | (k, v) :: rest, ro => by
    simp [fromVariantEntries, toVariantEntries, ConfigAtom.toVariant_fromVariant v ro,
      entries_roundtrip rest ro]

theorem items_roundtrip : (xs : List Variant) → (ro : Bool) →
    toVariantItems (fromVariantItems xs ro) = xs
  | [], _ => rfl
  | v :: rest, ro => by
    simp [fromVariantItems, toVariantItems, ConfigAtom.toVariant_fromVariant v ro,
      items_roundtrip rest ro]
end

theorem ConfigAtom.toVariant_ne_null_of_not_isNull (a : ConfigAtom) (h : a.isNull = false) :
    a.toVariant.isNull = false := by
  cases a <;> simp_all [ConfigAtom.isNull, ConfigAtom.toVariant, Variant.isNull]

/-- `QMap::find` on the association-list model: first entry with the key. -/
def listLookup (k : String) : List (String × α) → Option α
  | [] => none
  | (k', v) :: rest => if k' = k then some v else listLookup k rest

/-- `QMap::operator[]= / insert`: update in place when present, add when absent. -/
def listSet (k : String) (v : α) : List (String × α) → List (String × α)
  | [] => [(k, v)]
  | (k', v') :: rest => if k' = k then (k, v) :: rest else (k', v') :: listSet k v rest

/-- `QMap::remove(key)`: drop the entry with the key (keys are unique). -/
def listErase (k : String) : List (String × α) → List (String × α)
  | [] => []
  | (k', v') :: rest => if k' = k then rest else (k', v') :: listErase k rest

namespace ConfigAtom

/-- `ConfigAtom::child(const QString&)` (config.cpp:158): `ensureMap()`
coerces the atom to a Map (clearing a non-Map payload, as release-mode
`ensureMap` does; `Q_ASSERT(!m_readOnly || isMap())` guards the read-only
non-Map case, which no caller reaches).  On a miss a writable map inserts
a fresh Null child and returns it; a read-only map returns no handle.
Returns the child handle and the updated atom. -/
def child (a : ConfigAtom) (name : String) : Option ConfigAtom × ConfigAtom :=
  let ro := a.readOnly
  let es := match a with
    | .mapA _ es => es
    | _ => []
  match listLookup name es with
  | some c => (some c, .mapA ro es)
  | none =>
    if ro then (none, .mapA ro es)
    else (some (.nullA ro), .mapA ro (es ++ [(name, .nullA ro)]))

/-- `ConfigAtom::replace` (config.cpp:234): requires a Map
(`Q_ASSERT(isMap())`, modelled as `none`); returns whether the stored
value changed — true iff the key is absent or the old child's
materialized value differs from the new one's — together with the
updated atom.  When the values are equal the map is left untouched. -/
def replace (a : ConfigAtom) (name : String) (value : ConfigAtom) :
    Option (Bool × ConfigAtom) :=
  match a with
  | .mapA ro es =>
    match listLookup name es with
    | none => some (true, .mapA ro (listSet name value es))
    | some old =>
      if old.toVariant = value.toVariant then some (false, .mapA ro es)
      else some (true, .mapA ro (listSet name value es))
  | _ => none

/-- `ConfigAtom::remove(const QString&)` (config.cpp:228): requires a Map;
returns whether an entry was removed, with the updated atom. -/
def removeKey (a : ConfigAtom) (name : String) : Option (Bool × ConfigAtom) :=
  match a with
  | .mapA ro es => some ((listLookup name es).isSome, .mapA ro (listErase name es))
  | _ => none

/-- `ConfigAtom::remove(int)` (config.cpp:217): requires a List; out-of-range
returns false without mutation. -/
def removeIndex (a : ConfigAtom) (index : Nat) : Option (Bool × ConfigAtom) :=
  match a with
  | .listA ro xs =>
    if xs.length ≤ index then some (false, .listA ro xs)
    else some (true, .listA ro (xs.take index ++ xs.drop (index + 1)))
  | _ => none

end ConfigAtom

/-- `ConfigLevel` (config.cpp:571): one navigation frame — the ordered
layered atoms plus the array-element flag. -/
structure ConfigLevel where
  atoms : List ConfigAtom
  arrayElement : Bool

/-- `ConfigSource`'s mutable save-state: the dirty bit and the
"save event queued" (`isAtLoop`) bit (config.cpp:387). -/
structure SourceState where
  dirty : Bool
  isAtLoop : Bool

/-- `ConfigPrivate`'s data relevant to cursor operations: the level stack
(front is the current level, config.cpp:691) and the source list. -/
structure CursorState where
  levels : List ConfigLevel
  sources : List SourceState

/-- The atom walk of `Config::value` (config.cpp:1041-1051): visit the
current level's atoms in order; `Q_ASSERT(atom->isMap())` on each visited
atom (modelled as `none`); the first child that is present and non-Null
sets `var` to its materialized value and breaks the walk.  Returns the
accumulated value and the updated atoms (an atom visited on a miss gains
a Null child when writable). -/
def walkAtoms (k : String) : List ConfigAtom → Variant → Option (Variant × List ConfigAtom)
  | [], var => some (var, [])
  | a :: rest, var =>
    if a.isMap = false then none
    else
      let (c, a') := a.child k
      let var' := match c with
        | some ch => if ch.isNull then var else ch.toVariant
        | none => var
      if var'.isNull = false then some (var', a' :: rest)
      else
        match walkAtoms k rest var' with
        | none => none
        | some (v, rest') => some (v, a' :: rest')

/-- `Config::value` (config.cpp:1023) for a key without `'/'` and
`ValueFlags = Normal`: an empty current level yields the default; the walk
result, when Null, yields the default.  (A key with a slash wraps this
same walk between `beginGroup`/`endGroup` on the prefix; the `Crypted`
flag additionally passes the result through the external crypto service.)
Returns the value and the updated cursor; the source list — and with it
every dirty bit — is returned unchanged. -/
def Config.value (st : CursorState) (k : String) (dflt : Variant) :
    Option (Variant × CursorState) :=
  match st.levels with
  | [] => none
  | lvl :: rest =>
    if lvl.atoms.isEmpty then some (dflt, st)
    else
      match walkAtoms k lvl.atoms Variant.null with
      | none => none
      | some (var, atoms') =>
        some (if var.isNull then dflt else var,
              { levels := { lvl with atoms := atoms' } :: rest, sources := st.sources })

/-- `Config::setValue` (config.cpp:1062) for a key without `'/'` and
`ValueFlags = Normal`: no-op when the current level has no atoms;
otherwise the first atom must be a writable Map (`Q_ASSERT`, modelled as
`none`); `ConfigAtom::replace` with a writable node built from the value,
and only a reported change marks the first source dirty (guarded by a
non-empty source list). -/
def Config.setValue (st : CursorState) (k : String) (v : Variant) : Option CursorState :=
  match st.levels with
  | [] => none
  | lvl :: rest =>
    match lvl.atoms with
    | [] => some st
    | a :: as =>
      if a.isMap && !a.readOnly then
        match a.replace k (ConfigAtom.fromVariant v false) with
        | none => none
        | some (changed, a') =>
          let sources' :=
            if changed then
              match st.sources with
              | [] => st.sources
              | s :: ss => { s with dirty := true } :: ss
            else st.sources
          some { levels := { lvl with atoms := a' :: as } :: rest, sources := sources' }
      else none

/-- `Config::remove(const QString&)` (config.cpp:923): `atoms.value(0)` is a
null handle when the current level has no atoms, and `atom->remove(name)`
dereferences it — modelled as `none`; on a successful removal
`d->sources.first()` is called without an emptiness guard — `first()` on an
empty QList is modelled as `none`.  A successful removal marks the first
source dirty; a failed one changes no source. -/
def Config.removeKey (st : CursorState) (name : String) : Option CursorState :=
  match st.levels with
  | [] => none
  | lvl :: rest =>
    match lvl.atoms with
    | [] => none
    | a :: as =>
      match a.removeKey name with
      | none => none
      | some (removed, a') =>
        let st' : CursorState :=
          { levels := { lvl with atoms := a' :: as } :: rest, sources := st.sources }
        if removed then
          match st.sources with
          | [] => none
          | s :: ss =>
            some { st' with sources := { s with dirty := true } :: ss }
        else some st'

/-- `Config::remove(int)` (config.cpp:997): first pops the array-element
frame when the current frame is one (`takeFirst` on an exhausted stack is
modelled as `none`), then behaves like the key overload on the list
atom. -/
def Config.removeAt (st : CursorState) (index : Nat) : Option CursorState :=
  match (if (st.levels.head?.map ConfigLevel.arrayElement).getD false
         then st.levels.tail else st.levels) with
  | [] => none
  | lvl :: rest =>
    match lvl.atoms with
    | [] => none
    | a :: as =>
      match a.removeIndex index with
      | none => none
      | some (removed, a') =>
        let st' : CursorState :=
          { levels := { lvl with atoms := a' :: as } :: rest, sources := st.sources }
        if removed then
          match st.sources with
          | [] => none
          | s :: ss =>
            some { st' with sources := { s with dirty := true } :: ss }
        else some st'

/-- `Config::endArray` (config.cpp:954): assert more than one frame; pop the
array-element frame when the current frame is one; assert again more than
one frame and that the new current frame is not an array element; pop the
list frame.  Failed `Q_ASSERT`s are modelled as `none`. -/
def Config.endArray (levels : List ConfigLevel) : Option (List ConfigLevel) :=
  match levels with
  | [] => none
  | [_] => none
  | l :: rest =>
    match (if l.arrayElement then rest else l :: rest) with
    | [] => none
    | [_] => none
    | l1 :: rest1 => if l1.arrayElement then none else some rest1

/-- The state the deferred-save protocol acts on: the cursor's source list
(`ConfigPrivate::sources`; the head is `sources.value(0)`) and the number
of save events posted to the `PostConfigSaver` queue and not yet
dispatched. -/
structure SyncState where
  sources : List SourceState
  postedCount : Nat

/-- `ConfigPrivate::sync` (config.cpp:747): nothing happens on an empty
source list; only `sources.value(0)` is examined — when it is dirty and
not yet queued, its queued bit is set, its dirty bit cleared, and one
save event is posted; otherwise nothing happens. -/
def ConfigPrivate.sync (st : SyncState) : SyncState :=
  match st.sources with
  | [] => st
  | s :: rest =>
    if s.dirty && !s.isAtLoop then
      { sources := { dirty := false, isAtLoop := true } :: rest,
        postedCount := st.postedCount + 1 }
    else st

/-- `ConfigSource::makeDirty` applied to the first source (the only source
`Config::setValue`/`remove` ever dirty, config.cpp:1081). -/
def markFirstDirty : List SourceState → List SourceState
  | [] => []
  | s :: ss => { s with dirty := true } :: ss

/-- One cursor-side step between event dispatches: a mutation
(`setValue`/`remove` marking the first source dirty) or a `sync()` call. -/
inductive CfgOp where
  | mutate : CfgOp
  | syncCall : CfgOp

def applyOp (st : SyncState) : CfgOp → SyncState
  | .mutate => { st with sources := markFirstDirty st.sources }
  | .syncCall => ConfigPrivate.sync st

def runOps (st : SyncState) (ops : List CfgOp) : SyncState :=
  ops.foldl applyOp st

/-- `PostConfigSaver::event` (config.cpp:550): the dispatched event runs
`ConfigSource::sync` (backend save, dirty cleared) on the posted source —
here the first — and only then clears the queued bit. -/
def dispatchSaveEvent (st : SyncState) : SyncState :=
  match st.sources with
  | [] => st
  | _ :: ss =>
    { sources := { dirty := false, isAtLoop := false } :: ss,
      postedCount := st.postedCount - 1 }

/-- `ConfigPrivate::~ConfigPrivate` (config.cpp:741): a cursor destroyed
without a memory guard runs `sync()`; with one it does nothing. -/
def ConfigPrivate.drop (memoryGuard : Bool) (st : SyncState) : SyncState :=
  if memoryGuard then st else ConfigPrivate.sync st

/-- Whether the first source is queued (`isAtLoop`); false on an empty list. -/
def headQueued (st : SyncState) : Bool :=
  match st.sources with
  | [] => false
  | s :: _ => s.isAtLoop

/-- A registered backend (`ConfigBackend`): its lowercase extension tag and
its `load` codec.  `save` is not needed by the verified properties. -/
structure ConfigBackend where
  name : String
  load : String → Variant

/-- One `ConfigSource` as produced by `ConfigSource::open` (config.cpp:364):
file path, backend tag, root node, recorded modification stamp (`none` is
the invalid `QDateTime` of a missing file), and the two save-state bits. -/
structure SourceRec where
  fileName : String
  backendName : String
  data : ConfigAtom
  lastModified : Option Nat
  dirty : Bool
  isAtLoop : Bool

/-- The external file-system and path services `open` consults:
`QFileInfo::isAbsolute/suffix/exists/isWritable/lastModified`,
`QDir::cleanPath`, `SystemInfo::getDir(...).filePath` (resolution against
the user or system config directory), and existence of the containing
directory.  `suffix` models `info.suffix().toLatin1().toLower()`. -/
structure FsEnv where
  isAbsolute : String → Bool
  resolveDir : Bool → String → String
  cleanPath : String → String
  suffix : String → String
  fileExists : String → Bool
  isWritable : String → Bool
  dirExists : String → Bool
  mtime : String → Option Nat

/-- `ConfigSource::isValid` (config.cpp:380): the file's current
modification time equals the recorded stamp. -/
def SourceRec.isValid (env : FsEnv) (s : SourceRec) : Bool :=
  env.mtime s.fileName == s.lastModified

/-- The early cache return of `open`: a looked-up source is returned only
when present and `isValid()`. -/
def cacheHitValid (env : FsEnv) : Option SourceRec → Bool
  | none => false
  | some r => r.isValid env

/-- `ConfigSource::open` (config.cpp:442).  `cache` is the `SourceCache`
lookup (`sourceHash()->value`); the trailing `sourceHash()->insert` and
`mkpath` side effects are not modelled — the returned source is what the
claims are about.  `infoPath` tracks the `QFileInfo info` object, which is
only re-pointed (`info.setFile`) in the default-backend branch.  Returns
the opened source, or `none` for "absent". -/
def ConfigSource.openSource (env : FsEnv) (cache : String → Option SourceRec)
    (backends : List ConfigBackend) (path : String) (systemDir create : Bool)
    (bcknd : Option ConfigBackend) : Option SourceRec :=
  let fileName0 := if path = "" then "profile" else path
  let infoPath0 := fileName0
  if env.isAbsolute fileName0 && systemDir then none
  else
    let fileName1 := if env.isAbsolute fileName0 then fileName0
                     else env.resolveDir systemDir fileName0
    let fileName2 := env.cleanPath fileName1
    let result0 := cache fileName2
    if cacheHitValid env result0 then result0
    else
      -- backend selection (config.cpp:463-488); `sel` carries the chosen
      -- backend, the final fileName, the final infoPath and the live
      -- `result` of the latest cache lookup; `none` when no backend is
      -- registered.
      let sel : Option (ConfigBackend × String × String × Option SourceRec) :=
        match bcknd with
        | some b => some (b, fileName2, infoPath0, result0)
        | none =>
          match backends with
          | [] => none
          | b0 :: _ =>
            let sfx := env.suffix infoPath0
            match (if sfx ≠ "" then backends.find? (fun b => b.name = sfx) else none) with
            | some b => some (b, fileName2, infoPath0, result0)
            | none =>
              let fileName3 := fileName2 ++ "." ++ b0.name
              some (b0, fileName3, fileName3, cache fileName3)
      match sel with
      | none => none
      | some (backend, fileName, infoPath, result) =>
        if cacheHitValid env result then result
        else if !env.fileExists infoPath && !create then result
        else if !env.dirExists infoPath && !create then result
        else
          let readOnly := !env.isWritable infoPath && (systemDir || env.fileExists infoPath)
          let lastModified := env.mtime fileName
          let data0 := ConfigAtom.fromVariant (backend.load fileName) readOnly
          if data0.isValue || data0.isNull then
            if !create then none
            else some { fileName, backendName := backend.name,
                        data := ConfigAtom.fromVariant (Variant.vmap []) readOnly,
                        lastModified, dirty := false, isAtLoop := false }
          else some { fileName, backendName := backend.name, data := data0,
                      lastModified, dirty := false, isAtLoop := false }

/-- The literal interval argument of `it->timer.start(5 * 60, this)` in
`ConfigSourceHash::value` and `insert` (config.cpp:403, 416).
`QBasicTimer::start(int msec, QObject*)` interprets it in milliseconds. -/
def timerStartMsec : Nat := 5 * 60

/-- Five minutes expressed in the milliseconds `QBasicTimer::start`
expects. -/
def fiveMinutesMsec : Nat := 5 * 60 * 1000

/-- The `SourceCache` (`ConfigSourceHash`, config.cpp:393): each entry
carries the absolute moment (in milliseconds) its idle timer fires. -/
structure ConfigSourceHashS where
  entries : List (String × Nat)

/-- `ConfigSourceHash::value` (config.cpp:396) at current time `now`: a miss
returns no source and leaves the cache alone; a hit restarts the entry's
idle timer with the literal interval `timerStartMsec`.  The first
component tells whether the key was found. -/
def ConfigSourceHash.valueOp (now : Nat) (k : String) (st : ConfigSourceHashS) :
    Bool × ConfigSourceHashS :=
  match listLookup k st.entries with
  | none => (false, st)
  | some _ => (true, ⟨listSet k (now + timerStartMsec) st.entries⟩)

/-- `ConfigSourceHash::insert` (config.cpp:409) at current time `now`:
(re)creates the entry and restarts its idle timer with `timerStartMsec`. -/
def ConfigSourceHash.insertOp (now : Nat) (k : String) (st : ConfigSourceHashS) :
    ConfigSourceHashS :=
  ⟨listSet k (now + timerStartMsec) st.entries⟩

/-- `ConfigSourceHash::timerEvent` (config.cpp:422): the fired entry is
evicted. -/
def ConfigSourceHash.timerEventOp (k : String) (st : ConfigSourceHashS) :
    ConfigSourceHashS :=
  ⟨listErase k st.entries⟩

/-- The pure lookup behind the spec's word "present": the Map's child at
`k`, without the insertion side effect of `ConfigAtom::child`. -/
def ConfigAtom.findChild (a : ConfigAtom) (k : String) : Option ConfigAtom :=
  match a with
  | .mapA _ es => listLookup k es
  | _ => none

/-- Modelled from the spec's words (§8.3, §4.6 Reads), for comparison with
the code's walk: the first atom whose Map contains `k` with a non-Null
child wins and its child is materialized; otherwise the default. -/
def layeredLookupSpec (atoms : List ConfigAtom) (k : String) (dflt : Variant) : Variant :=
  match atoms with
  | [] => dflt
  | a :: rest =>
    match a.findChild k with
    | some c => if c.isNull then layeredLookupSpec rest k dflt else c.toVariant
    | none => layeredLookupSpec rest k dflt

theorem walkAtoms_nil (k : String) :
    walkAtoms k [] Variant.null = some (Variant.null, []) := rfl

theorem walkAtoms_found (ro : Bool) (es : List (String × ConfigAtom))
    (rest : List ConfigAtom) (k : String) (c : ConfigAtom)
    (h : listLookup k es = some c) (hc : c.isNull = false) :
    walkAtoms k (ConfigAtom.mapA ro es :: rest) Variant.null =
      some (c.toVariant, ConfigAtom.mapA ro es :: rest) := by
  simp [walkAtoms, ConfigAtom.isMap, ConfigAtom.child, ConfigAtom.readOnly, h, hc,
    ConfigAtom.toVariant_ne_null_of_not_isNull c hc]

theorem walkAtoms_found_null (ro : Bool) (es : List (String × ConfigAtom))
    (rest : List ConfigAtom) (k : String) (c : ConfigAtom)
    (h : listLookup k es = some c) (hc : c.isNull = true) :
    walkAtoms k (ConfigAtom.mapA ro es :: rest) Variant.null =
      (walkAtoms k rest Variant.null).map
        (fun p => (p.1, ConfigAtom.mapA ro es :: p.2)) := by
  simp only [walkAtoms, ConfigAtom.isMap, ConfigAtom.child, ConfigAtom.readOnly, h, hc]
  simp [Variant.isNull]
  cases walkAtoms k rest Variant.null with
  | none => rfl
  | some p => rfl

theorem walkAtoms_miss (ro : Bool) (es : List (String × ConfigAtom))
    (rest : List ConfigAtom) (k : String) (h : listLookup k es = none) :
    walkAtoms k (ConfigAtom.mapA ro es :: rest) Variant.null =
      (walkAtoms k rest Variant.null).map
        (fun p => (p.1,
          ConfigAtom.mapA ro (if ro then es else es ++ [(k, ConfigAtom.nullA ro)]) :: p.2)) := by
  cases ro <;>
  · simp only [walkAtoms, ConfigAtom.isMap, ConfigAtom.child, ConfigAtom.readOnly, h]
    simp [ConfigAtom.isNull, Variant.isNull]
    cases walkAtoms k rest Variant.null with
    | none => rfl
    | some p => rfl

/-- Claim C1: layered read precedence.  For a cursor whose current level has
the atoms `[A, B]` (both Maps, as `Config::value` asserts) and any key,
`value(k, default)` returns A's child at `k` materialized when that child
is present and non-Null, else B's child likewise, else the default —
i.e. the code's walk agrees with the spec-side layered lookup, visiting
atoms in order and stopping at the first non-null materialized value. -/
theorem Config.value_layered_precedence (A B : ConfigAtom) (k : String) (dflt : Variant)
    (ae : Bool) (deeper : List ConfigLevel) (srcs : List SourceState)
    (hA : A.isMap = true) (hB : B.isMap = true) :
    (Config.value ⟨⟨[A, B], ae⟩ :: deeper, srcs⟩ k dflt).map Prod.fst =
      some (layeredLookupSpec [A, B] k dflt) := by
  obtain ⟨roA, esA, rfl⟩ : ∃ ro es, A = ConfigAtom.mapA ro es := by
    cases A <;> simp_all [ConfigAtom.isMap]
  obtain ⟨roB, esB, rfl⟩ : ∃ ro es, B = ConfigAtom.mapA ro es := by
    cases B <;> simp_all [ConfigAtom.isMap]
  simp only [Config.value, List.isEmpty]
  rcases hlA : listLookup k esA with _ | cA
  · rcases hlB : listLookup k esB with _ | cB
    · rw [walkAtoms_miss _ _ _ _ hlA]
      rw [walkAtoms_miss _ _ _ _ hlB, walkAtoms_nil]
      simp [layeredLookupSpec, ConfigAtom.findChild, hlA, hlB, Variant.isNull]
    · cases hcB : cB.isNull
      · rw [walkAtoms_miss _ _ _ _ hlA, walkAtoms_found _ _ _ _ _ hlB hcB]
        simp [layeredLookupSpec, ConfigAtom.findChild, hlA, hlB, hcB,
          ConfigAtom.toVariant_ne_null_of_not_isNull cB hcB]
      · rw [walkAtoms_miss _ _ _ _ hlA, walkAtoms_found_null _ _ _ _ _ hlB hcB, walkAtoms_nil]
        simp [layeredLookupSpec, ConfigAtom.findChild, hlA, hlB, hcB, Variant.isNull]
  · cases hcA : cA.isNull
    · rw [walkAtoms_found _ _ _ _ _ hlA hcA]
      simp [layeredLookupSpec, ConfigAtom.findChild, hlA, hcA,
        ConfigAtom.toVariant_ne_null_of_not_isNull cA hcA]
    · rw [walkAtoms_found_null _ _ _ _ _ hlA hcA]
      rcases hlB : listLookup k esB with _ | cB
      · rw [walkAtoms_miss _ _ _ _ hlB, walkAtoms_nil]
        simp [layeredLookupSpec, ConfigAtom.findChild, hlA, hlB, hcA, Variant.isNull]
      · cases hcB : cB.isNull
        · rw [walkAtoms_found _ _ _ _ _ hlB hcB]
          simp [layeredLookupSpec, ConfigAtom.findChild, hlA, hlB, hcA, hcB,
            ConfigAtom.toVariant_ne_null_of_not_isNull cB hcB]
        · rw [walkAtoms_found_null _ _ _ _ _ hlB hcB, walkAtoms_nil]
          simp [layeredLookupSpec, ConfigAtom.findChild, hlA, hlB, hcA, hcB, Variant.isNull]

/-- Witness for C1: a user layer holding `k = "1"` over a read-only system
layer holding `k = "2"`; the walk yields the user value, as the spec-side
lookup demands. -/
theorem Config.value_layered_precedence_witness :
    (ConfigAtom.mapA false [("k", ConfigAtom.valueA false "1")]).isMap = true ∧
    (ConfigAtom.mapA true [("k", ConfigAtom.valueA true "2")]).isMap = true ∧
    (Config.value
        ⟨[⟨[ConfigAtom.mapA false [("k", ConfigAtom.valueA false "1")],
            ConfigAtom.mapA true [("k", ConfigAtom.valueA true "2")]], false⟩], []⟩
        "k" Variant.null).map Prod.fst =
      some (layeredLookupSpec
        [ConfigAtom.mapA false [("k", ConfigAtom.valueA false "1")],
         ConfigAtom.mapA true [("k", ConfigAtom.valueA true "2")]] "k" Variant.null) :=
  ⟨rfl, rfl, Config.value_layered_precedence _ _ "k" Variant.null false [] [] rfl rfl⟩

/-- Counterexample to C2's universal claim: with a writable empty user layer
over a read-only system layer holding `k = "1"`, the key is readable
(`value("k") = "1"`), yet `setValue("k", value("k"))` writes `"1"` into
the first atom — where only the Null child inserted by the read was
stored — so `replace` reports a change and the first source's dirty bit
is set. -/
theorem Config.setValue_value_layered_dirty_cex :
    Config.value
        ⟨[⟨[ConfigAtom.mapA false [],
            ConfigAtom.mapA true [("k", ConfigAtom.valueA true "1")]], false⟩],
         [⟨false, false⟩]⟩ "k" Variant.null =
      some (Variant.scalar "1",
        ⟨[⟨[ConfigAtom.mapA false [("k", ConfigAtom.nullA false)],
            ConfigAtom.mapA true [("k", ConfigAtom.valueA true "1")]], false⟩],
         [⟨false, false⟩]⟩) ∧
    Config.setValue
        ⟨[⟨[ConfigAtom.mapA false [("k", ConfigAtom.nullA false)],
            ConfigAtom.mapA true [("k", ConfigAtom.valueA true "1")]], false⟩],
         [⟨false, false⟩]⟩ "k" (Variant.scalar "1") =
      some
        ⟨[⟨[ConfigAtom.mapA false [("k", ConfigAtom.valueA false "1")],
            ConfigAtom.mapA true [("k", ConfigAtom.valueA true "1")]], false⟩],
         [⟨true, false⟩]⟩ := ⟨rfl, rfl⟩

/-- Claim C2 (amended): `ConfigAtom::replace` reports a change iff the key
is absent or the stored child's materialized value differs, and reports
"unchanged" without mutating when they are equal; consequently, for every
key `k` readable from the FIRST atom (present with a non-Null child
there), `setValue(k, value(k))` leaves the cursor — including every
source's dirty bit — unchanged.  (The unamended claim, quantified over
keys readable from any layer, is refuted by
`Config.setValue_value_layered_dirty_cex`.) -/
theorem Config.setValue_noop_idempotence
    (es : List (String × ConfigAtom)) (tailAtoms : List ConfigAtom) (ae : Bool)
    (rest : List ConfigLevel) (srcs : List SourceState)
    (c : ConfigAtom) (k : String) (dflt : Variant)
    (hfind : listLookup k es = some c) (hc : c.isNull = false) :
    (∀ (ro : Bool) (es' : List (String × ConfigAtom)) (kk : String) (v : ConfigAtom),
      ((ConfigAtom.replace (ConfigAtom.mapA ro es') kk v).map Prod.fst = some true ↔
        listLookup kk es' = none ∨
          ∃ old, listLookup kk es' = some old ∧ old.toVariant ≠ v.toVariant) ∧
      (∀ old, listLookup kk es' = some old → old.toVariant = v.toVariant →
        ConfigAtom.replace (ConfigAtom.mapA ro es') kk v =
          some (false, ConfigAtom.mapA ro es'))) ∧
    Config.value ⟨⟨ConfigAtom.mapA false es :: tailAtoms, ae⟩ :: rest, srcs⟩ k dflt =
      some (c.toVariant, ⟨⟨ConfigAtom.mapA false es :: tailAtoms, ae⟩ :: rest, srcs⟩) ∧
    Config.setValue ⟨⟨ConfigAtom.mapA false es :: tailAtoms, ae⟩ :: rest, srcs⟩ k c.toVariant =
      some ⟨⟨ConfigAtom.mapA false es :: tailAtoms, ae⟩ :: rest, srcs⟩ := by
  refine ⟨?_, ?_, ?_⟩
  · intro ro es' kk v
    constructor
    · rcases h : listLookup kk es' with _ | old
      · simp [ConfigAtom.replace, h]
      · by_cases he : old.toVariant = v.toVariant
        · simp [ConfigAtom.replace, h, he]
        · simp [ConfigAtom.replace, h, he]
    · intro old h he
      simp [ConfigAtom.replace, h, he]
  · simp only [Config.value, List.isEmpty]
    rw [walkAtoms_found _ _ _ _ _ hfind hc]
    simp [ConfigAtom.toVariant_ne_null_of_not_isNull c hc]
  · simp only [Config.setValue, ConfigAtom.isMap, ConfigAtom.readOnly, Bool.and_self]
    simp [ConfigAtom.replace, hfind, ConfigAtom.toVariant_fromVariant]

/-- Witness for C2: one writable source holding `k = "1"`;
`setValue("k", value("k"))` returns the state unchanged. -/
theorem Config.setValue_noop_idempotence_witness :
    listLookup "k" [("k", ConfigAtom.valueA false "1")] = some (ConfigAtom.valueA false "1") ∧
    (ConfigAtom.valueA false "1").isNull = false ∧
    Config.setValue
        ⟨[⟨[ConfigAtom.mapA false [("k", ConfigAtom.valueA false "1")]], false⟩],
         [⟨false, false⟩]⟩ "k" (ConfigAtom.valueA false "1").toVariant =
      some ⟨[⟨[ConfigAtom.mapA false [("k", ConfigAtom.valueA false "1")]], false⟩],
            [⟨false, false⟩]⟩ :=
  ⟨rfl, rfl,
    (Config.setValue_noop_idempotence [("k", ConfigAtom.valueA false "1")] [] false []
      [⟨false, false⟩] (ConfigAtom.valueA false "1") "k" Variant.null rfl rfl).2.2⟩

/-- Counterexample to C3: the resolved file does not exist and a stale
(invalid) entry for its canonical path sits in the SourceCache; with
`create = false`, `open` returns that stale Source — not absent — because
the missing-file path returns the live `result` of the cache lookup. -/
theorem ConfigSource.openSource_stale_cache_cex :
    (FsEnv.mk (fun p => p = "/a/cfg.ini") (fun _ p => p) (fun p => p) (fun _ => "ini")
        (fun _ => false) (fun _ => false) (fun _ => true) (fun _ => none)).fileExists
        "/a/cfg.ini" = false ∧
    SourceRec.isValid
      (FsEnv.mk (fun p => p = "/a/cfg.ini") (fun _ p => p) (fun p => p) (fun _ => "ini")
        (fun _ => false) (fun _ => false) (fun _ => true) (fun _ => none))
      ⟨"/a/cfg.ini", "ini", ConfigAtom.mapA false [], some 1, false, false⟩ = false ∧
    ConfigSource.openSource
      (FsEnv.mk (fun p => p = "/a/cfg.ini") (fun _ p => p) (fun p => p) (fun _ => "ini")
        (fun _ => false) (fun _ => false) (fun _ => true) (fun _ => none))
      (fun q => if q = "/a/cfg.ini"
        then some ⟨"/a/cfg.ini", "ini", ConfigAtom.mapA false [], some 1, false, false⟩
        else none)
      [⟨"ini", fun _ => Variant.vmap []⟩] "/a/cfg.ini" false false
      (some ⟨"ini", fun _ => Variant.vmap []⟩) =
      some ⟨"/a/cfg.ini", "ini", ConfigAtom.mapA false [], some 1, false, false⟩ := by
  refine ⟨rfl, rfl, ?_⟩
  rfl

/-- Claim C3 (amended): with `create = false` and a missing resolved file,
`open` returns the result of the SourceCache lookup — absent exactly when
no entry (stale or not) is cached for the candidate canonical names; a
cached Source passes the `isValid()` check only for the early return, not
for this fall-through.  First conjunct: with an empty cache and no
existing files the result is absent for every path.  Second conjunct: the
missing-file return is literally the cache lookup. -/
theorem ConfigSource.openSource_missing_file_cache :
    (∀ (env : FsEnv) (cache : String → Option SourceRec)
        (backends : List ConfigBackend) (path : String) (sysd : Bool)
        (bcknd : Option ConfigBackend),
      (∀ q, cache q = none) → (∀ q, env.fileExists q = false) →
      ConfigSource.openSource env cache backends path sysd false bcknd = none) ∧
    (∀ (env : FsEnv) (cache : String → Option SourceRec)
        (backends : List ConfigBackend) (path : String) (sysd : Bool)
        (b : ConfigBackend) (fn0 fn2 : String),
      fn0 = (if path = "" then "profile" else path) →
      (env.isAbsolute fn0 && sysd) = false →
      fn2 = env.cleanPath (if env.isAbsolute fn0 then fn0 else env.resolveDir sysd fn0) →
      cacheHitValid env (cache fn2) = false →
      env.fileExists fn0 = false →
      ConfigSource.openSource env cache backends path sysd false (some b) = cache fn2) := by
  constructor
  · intro env cache backends path sysd bcknd hc hex
    simp only [ConfigSource.openSource, hc, hex, cacheHitValid]
    cases habs : env.isAbsolute (if path = "" then "profile" else path) && sysd
    · simp only [Bool.false_eq_true, if_false]
      cases bcknd with
      | some b => simp [hc, hex]
      | none =>
        cases backends with
        | nil => simp
        | cons b0 bs =>
          simp only []
          rcases hf : (if env.suffix (if path = "" then "profile" else path) ≠ ""
              then (b0 :: bs).find?
                (fun b => b.name = env.suffix (if path = "" then "profile" else path))
              else none) with _ | b
          · simp [hf, hc, hex]
          · simp [hf, hc, hex]
    · simp
  · intro env cache backends path sysd b fn0 fn2 h0 habs h2 hvalid hex
    subst h0; subst h2
    simp only [ConfigSource.openSource, habs, hvalid, hex]
    simp [habs, hvalid, hex]

/-- Witness for C3: empty cache, no files — opening "p" without `create`
yields absent. -/
theorem ConfigSource.openSource_missing_file_cache_witness :
    ConfigSource.openSource
      (FsEnv.mk (fun _ => false) (fun _ p => p) (fun p => p) (fun _ => "")
        (fun _ => false) (fun _ => false) (fun _ => false) (fun _ => none))
      (fun _ => none) [] "p" false false none = none :=
  ConfigSource.openSource_missing_file_cache.1
    (FsEnv.mk (fun _ => false) (fun _ p => p) (fun p => p) (fun _ => "")
      (fun _ => false) (fun _ => false) (fun _ => false) (fun _ => none))
    (fun _ => none) [] "p" false none (fun _ => rfl) (fun _ => rfl)

/-- Counterexample to C4: a system-directory open with `create = true` whose
backend load yields a Scalar — the file is unwritable, so the computed
read-only flag is true and the replacement empty Map root is READ-ONLY,
not writable as the claim states. -/
theorem ConfigSource.openSource_scalar_root_readonly_cex :
    ConfigSource.openSource
      (FsEnv.mk (fun _ => false) (fun _ p => "/sys/" ++ p) (fun p => p) (fun _ => "ini")
        (fun _ => true) (fun _ => false) (fun _ => true) (fun _ => some 7))
      (fun _ => none) [⟨"ini", fun _ => Variant.scalar "s"⟩] "conf" true true
      (some ⟨"ini", fun _ => Variant.scalar "s"⟩) =
      some ⟨"/sys/conf", "ini", ConfigAtom.mapA true [], some 7, false, false⟩ ∧
    (ConfigAtom.mapA true []).readOnly = true := ⟨rfl, rfl⟩

/-- Claim C4 (amended): when `backend.load` materializes to a Scalar or
Null root, `open` with `create = true` returns a Source whose root is an
EMPTY MAP CARRYING THE COMPUTED READ-ONLY FLAG (writable exactly when
that flag is false — not unconditionally writable, see
`ConfigSource.openSource_scalar_root_readonly_cex`), and with
`create = false` it returns absent. -/
theorem ConfigSource.openSource_scalar_root_empty_map
    (env : FsEnv) (cache : String → Option SourceRec) (backends : List ConfigBackend)
    (path : String) (sysd : Bool) (b : ConfigBackend) (fn0 fn2 : String) (ro : Bool)
    (h0 : fn0 = (if path = "" then "profile" else path))
    (habs : (env.isAbsolute fn0 && sysd) = false)
    (h2 : fn2 = env.cleanPath (if env.isAbsolute fn0 then fn0 else env.resolveDir sysd fn0))
    (hvalid : cacheHitValid env (cache fn2) = false)
    (hex : env.fileExists fn0 = true)
    (hdir : env.dirExists fn0 = true)
    (hro : ro = (!env.isWritable fn0 && (sysd || env.fileExists fn0)))
    (hload : ((ConfigAtom.fromVariant (b.load fn2) ro).isValue ||
              (ConfigAtom.fromVariant (b.load fn2) ro).isNull) = true) :
    ConfigSource.openSource env cache backends path sysd true (some b) =
      some ⟨fn2, b.name, ConfigAtom.mapA ro [], env.mtime fn2, false, false⟩ ∧
    ConfigSource.openSource env cache backends path sysd false (some b) = none := by
  subst h0; subst h2; subst hro
  simp only [hex, Bool.or_true, Bool.and_true] at hload
  rcases Bool.or_eq_true_iff.mp hload with hv | hn
  · constructor
    · simp only [ConfigSource.openSource, habs, hvalid, hex, hdir]
      simp [habs, hvalid, hex, hdir, hv, ConfigAtom.fromVariant, fromVariantEntries]
    · simp only [ConfigSource.openSource, habs, hvalid, hex, hdir]
      simp [habs, hvalid, hex, hdir, hv]
  · constructor
    · simp only [ConfigSource.openSource, habs, hvalid, hex, hdir]
      simp [habs, hvalid, hex, hdir, hn, ConfigAtom.fromVariant, fromVariantEntries]
    · simp only [ConfigSource.openSource, habs, hvalid, hex, hdir]
      simp [habs, hvalid, hex, hdir, hn]

/-- Witness for C4: a writable user file loading as Null — the replacement
root is an empty writable Map and the `create = false` open is absent. -/
theorem ConfigSource.openSource_scalar_root_empty_map_witness :
    ConfigSource.openSource
      (FsEnv.mk (fun _ => false) (fun _ p => p) (fun p => p) (fun _ => "")
        (fun _ => true) (fun _ => true) (fun _ => true) (fun _ => some 3))
      (fun _ => none) [] "p" false true (some ⟨"ini", fun _ => Variant.null⟩) =
      some ⟨"p", "ini", ConfigAtom.mapA false [], some 3, false, false⟩ ∧
    ConfigSource.openSource
      (FsEnv.mk (fun _ => false) (fun _ p => p) (fun p => p) (fun _ => "")
        (fun _ => true) (fun _ => true) (fun _ => true) (fun _ => some 3))
      (fun _ => none) [] "p" false false (some ⟨"ini", fun _ => Variant.null⟩) = none :=
  ConfigSource.openSource_scalar_root_empty_map
    (FsEnv.mk (fun _ => false) (fun _ p => p) (fun p => p) (fun _ => "")
      (fun _ => true) (fun _ => true) (fun _ => true) (fun _ => some 3))
    (fun _ => none) [] "p" false ⟨"ini", fun _ => Variant.null⟩ "p" "p" false
    rfl rfl rfl rfl rfl rfl rfl rfl

theorem applyOp_measure (st : SyncState) (op : CfgOp) :
    (applyOp st op).postedCount + (if headQueued (applyOp st op) then 0 else 1) ≤
      st.postedCount + (if headQueued st then 0 else 1) := by
  cases op with
  | mutate =>
    rcases st with ⟨sources, p⟩
    cases sources with
    | nil => simp [applyOp, markFirstDirty, headQueued]
    | cons s ss => simp [applyOp, markFirstDirty, headQueued]
  | syncCall =>
    rcases st with ⟨sources, p⟩
    cases sources with
    | nil => simp [applyOp, ConfigPrivate.sync, headQueued]
    | cons s ss =>
      by_cases h : (s.dirty && !s.isAtLoop) = true
      · obtain ⟨hd, hl⟩ := Bool.and_eq_true_iff.mp h
        have hl' : s.isAtLoop = false := by simpa using hl
        simp [applyOp, ConfigPrivate.sync, headQueued, h, hd, hl']
      · simp [applyOp, ConfigPrivate.sync, headQueued, h]

theorem runOps_measure (ops : List CfgOp) (st : SyncState) :
    (runOps st ops).postedCount + (if headQueued (runOps st ops) then 0 else 1) ≤
      st.postedCount + (if headQueued st then 0 else 1) := by
  induction ops generalizing st with
  | nil => simp [runOps]
  | cons op rest ih =>
    have h1 := ih (applyOp st op)
    have h2 := applyOp_measure st op
    calc (runOps st (op :: rest)).postedCount +
          (if headQueued (runOps st (op :: rest)) then 0 else 1) =
        (runOps (applyOp st op) rest).postedCount +
          (if headQueued (runOps (applyOp st op) rest) then 0 else 1) := by
          simp [runOps, List.foldl]
      _ ≤ _ := le_trans h1 h2

/-- Claim C5: save coalescing.  Starting from a state whose first source is
not queued, any sequence of `setValue` mutations and `sync()` calls run
before the posted event is dispatched posts at most one save event;
`sync` posts exactly when the source is dirty with the queued bit clear
(setting the bit and clearing dirty), does nothing otherwise, and only
the Saver's dispatch (`PostConfigSaver::event` running `Source::sync`)
clears the queued bit. -/
theorem ConfigPrivate.sync_coalesces_saves (ops : List CfgOp) (st : SyncState)
    (h : headQueued st = false) :
    (runOps st ops).postedCount ≤ st.postedCount + 1 ∧
    (∀ (s : SourceState) (rest : List SourceState) (p : Nat),
      s.dirty = true → s.isAtLoop = false →
      ConfigPrivate.sync ⟨s :: rest, p⟩ =
        ⟨{ dirty := false, isAtLoop := true } :: rest, p + 1⟩) ∧
    (∀ (s : SourceState) (rest : List SourceState) (p : Nat),
      (s.dirty && !s.isAtLoop) = false →
      ConfigPrivate.sync ⟨s :: rest, p⟩ = ⟨s :: rest, p⟩) ∧
    (∀ (s : SourceState) (ss : List SourceState) (p : Nat),
      dispatchSaveEvent ⟨s :: ss, p⟩ =
        ⟨{ dirty := false, isAtLoop := false } :: ss, p - 1⟩) := by
  refine ⟨?_, ?_, ?_, ?_⟩
  · have := runOps_measure ops st
    rw [h] at this
    simp only [if_false, Bool.false_eq_true] at this
    omega
  · intro s rest p hd hl
    simp [ConfigPrivate.sync, hd, hl]
  · intro s rest p hcond
    simp [ConfigPrivate.sync, hcond]
  · intro s ss p
    simp [dispatchSaveEvent]

/-- Witness for C5: two mutations interleaved with two `sync()` calls on a
clean, unqueued source post exactly at most one event. -/
theorem ConfigPrivate.sync_coalesces_saves_witness :
    (runOps ⟨[⟨false, false⟩], 0⟩
      [CfgOp.mutate, CfgOp.syncCall, CfgOp.mutate, CfgOp.syncCall]).postedCount ≤ 1 :=
  (ConfigPrivate.sync_coalesces_saves
    [CfgOp.mutate, CfgOp.syncCall, CfgOp.mutate, CfgOp.syncCall]
    ⟨[⟨false, false⟩], 0⟩ rfl).1

/-- Counterexample to C6: a guard-less drop with a clean first source and a
dirty, unqueued SECOND source posts no save event at all — `sync()`
examines only `sources.value(0)`, not every dirty source as the claim
states. -/
theorem ConfigPrivate.drop_second_source_ignored_cex :
    ConfigPrivate.drop false ⟨[⟨false, false⟩, ⟨true, false⟩], 0⟩ =
      ⟨[⟨false, false⟩, ⟨true, false⟩], 0⟩ ∧
    (SourceState.mk true false).dirty = true ∧
    (SourceState.mk true false).isAtLoop = false := ⟨rfl, rfl, rfl⟩

/-- Claim C6 (amended): destroying a cursor without a memory guard runs
`sync()`, which examines ONLY THE FIRST source of the cursor's list —
posting one save event and setting the queued bit when that source is
dirty and unqueued, and doing nothing otherwise (later sources are never
examined, see `ConfigPrivate.drop_second_source_ignored_cex`); destroying
a cursor with a memory guard posts nothing. -/
theorem ConfigPrivate.drop_syncs_first_source :
    (∀ st : SyncState, ConfigPrivate.drop true st = st) ∧
    (∀ (s : SourceState) (ss : List SourceState) (p : Nat),
      s.dirty = true → s.isAtLoop = false →
      ConfigPrivate.drop false ⟨s :: ss, p⟩ =
        ⟨{ dirty := false, isAtLoop := true } :: ss, p + 1⟩) ∧
    (∀ (s : SourceState) (ss : List SourceState) (p : Nat),
      (s.dirty && !s.isAtLoop) = false →
      ConfigPrivate.drop false ⟨s :: ss, p⟩ = ⟨s :: ss, p⟩) ∧
    (∀ p : Nat, ConfigPrivate.drop false ⟨[], p⟩ = ⟨[], p⟩) := by
  refine ⟨?_, ?_, ?_, ?_⟩
  · intro st; simp [ConfigPrivate.drop]
  · intro s ss p hd hl
    simp [ConfigPrivate.drop, ConfigPrivate.sync, hd, hl]
  · intro s ss p hcond
    simp [ConfigPrivate.drop, ConfigPrivate.sync, hcond]
  · intro p; simp [ConfigPrivate.drop, ConfigPrivate.sync]

/-- Witness for C6: a guard-less drop with a dirty, unqueued first source
posts one event and sets the queued bit. -/
theorem ConfigPrivate.drop_syncs_first_source_witness :
    ConfigPrivate.drop false ⟨[⟨true, false⟩], 0⟩ =
      ⟨[{ dirty := false, isAtLoop := true }], 1⟩ :=
  ConfigPrivate.drop_syncs_first_source.2.1 ⟨true, false⟩ [] 0 rfl rfl

/-- Claim C7: the `SourceCache` does restart the entry's idle timer on every
hit of `value` and on every `insert`, but the literal interval argument is
`5 * 60 = 300`, and `QBasicTimer::start` takes milliseconds — so the
restarted timer denotes 0.3 seconds, NOT the five minutes (300000 ms) the
spec states; an untouched entry is evicted 300 ms after its last access. -/
theorem ConfigSourceHash.timer_interval_bug :
    timerStartMsec = 300 ∧ fiveMinutesMsec = 300000 ∧ timerStartMsec ≠ fiveMinutesMsec ∧
    ConfigSourceHash.valueOp 1000 "a" ⟨[("a", 0)]⟩ =
      (true, ⟨[("a", 1000 + timerStartMsec)]⟩) ∧
    ConfigSourceHash.insertOp 1000 "a" ⟨[]⟩ = ⟨[("a", 1000 + timerStartMsec)]⟩ ∧
    ConfigSourceHash.valueOp 1000 "b" ⟨[("a", 0)]⟩ = (false, ⟨[("a", 0)]⟩) ∧
    ConfigSourceHash.timerEventOp "a" ⟨[("a", 300)]⟩ = ⟨[]⟩ := by
  refine ⟨rfl, rfl, ?_, rfl, rfl, rfl, rfl⟩
  decide

/-- Claim C8: `endArray` frame discipline.  Whenever `endArray` succeeds on
a frame stack, it pops the array-element frame first when the current
frame's `arrayElement` flag is set, then pops the list frame; the frame
exposed by the optional element pop is itself no array element, and at
least one frame (the root) always survives — the asserted cases are
exactly the `none` results. -/
theorem Config.endArray_frame_discipline (l : ConfigLevel) (rest : List ConfigLevel)
    (out : List ConfigLevel) (h : Config.endArray (l :: rest) = some out) :
    1 ≤ out.length ∧
    (l.arrayElement = true →
      ∃ l2 r2, rest = l2 :: r2 ∧ l2.arrayElement = false ∧ out = r2 ∧ r2 ≠ []) ∧
    (l.arrayElement = false → out = rest ∧ rest ≠ []) := by
  cases hae : l.arrayElement with
  | true =>
    cases rest with
    | nil => simp [Config.endArray, hae] at h
    | cons l2 r2 =>
      cases r2 with
      | nil => simp [Config.endArray, hae] at h
      | cons l3 r3 =>
        cases hae2 : l2.arrayElement with
        | true => simp [Config.endArray, hae, hae2] at h
        | false =>
          simp [Config.endArray, hae, hae2] at h
          subst h
          exact ⟨by simp, fun _ => ⟨l2, l3 :: r3, rfl, hae2, rfl, by simp⟩,
            fun hfa => Bool.noConfusion hfa⟩
  | false =>
    cases rest with
    | nil => simp [Config.endArray, hae] at h
    | cons r1 rs =>
      simp [Config.endArray, hae] at h
      subst h
      exact ⟨by simp, fun hta => Bool.noConfusion hta,
        fun _ => ⟨rfl, by simp⟩⟩

/-- Witness for C8: element frame over list frame over root — `endArray`
pops both and keeps the root. -/
theorem Config.endArray_frame_discipline_witness :
    Config.endArray [⟨[], true⟩, ⟨[], false⟩, ⟨[], false⟩] =
      some [(⟨[], false⟩ : ConfigLevel)] ∧
    1 ≤ ([(⟨[], false⟩ : ConfigLevel)] : List ConfigLevel).length :=
  ⟨rfl, (Config.endArray_frame_discipline ⟨[], true⟩ [⟨[], false⟩, ⟨[], false⟩]
    [⟨[], false⟩] rfl).1⟩

theorem toVariantEntries_append (xs ys : List (String × ConfigAtom)) :
    toVariantEntries (xs ++ ys) = toVariantEntries xs ++ toVariantEntries ys := by
  induction xs with
  | nil => simp [toVariantEntries]
  | cons p rest ih =>
    obtain ⟨k, a⟩ := p
    simp [toVariantEntries, ih]

/-- Claim C9: implicit read side effect.  When the current level's first
atom is a WRITABLE Map lacking `k` (and the remaining layers yield
nothing), `value(k, default)` returns the default yet inserts a fresh
Null child under `k` into that Map — its materialized tree value gains
the entry `(k, Null)` — while the sources (and their dirty bits) are
returned untouched; on a READ-ONLY first Map the same read inserts
nothing. -/
theorem Config.value_inserts_null_child
    (es : List (String × ConfigAtom)) (restAtoms restAtoms' : List ConfigAtom) (ae : Bool)
    (rest : List ConfigLevel) (srcs : List SourceState) (k : String) (dflt : Variant)
    (hmiss : listLookup k es = none)
    (hrest : walkAtoms k restAtoms Variant.null = some (Variant.null, restAtoms')) :
    Config.value ⟨⟨ConfigAtom.mapA false es :: restAtoms, ae⟩ :: rest, srcs⟩ k dflt =
      some (dflt,
        ⟨⟨ConfigAtom.mapA false (es ++ [(k, ConfigAtom.nullA false)]) :: restAtoms', ae⟩ :: rest,
         srcs⟩) ∧
    (ConfigAtom.mapA false (es ++ [(k, ConfigAtom.nullA false)])).toVariant =
      Variant.vmap (toVariantEntries es ++ [(k, Variant.null)]) ∧
    Config.value ⟨⟨ConfigAtom.mapA true es :: restAtoms, ae⟩ :: rest, srcs⟩ k dflt =
      some (dflt, ⟨⟨ConfigAtom.mapA true es :: restAtoms', ae⟩ :: rest, srcs⟩) := by
  refine ⟨?_, ?_, ?_⟩
  · simp only [Config.value, List.isEmpty]
    rw [walkAtoms_miss _ _ _ _ hmiss, hrest]
    simp [Variant.isNull]
  · simp [ConfigAtom.toVariant, toVariantEntries_append, toVariantEntries]
  · simp only [Config.value, List.isEmpty]
    rw [walkAtoms_miss _ _ _ _ hmiss, hrest]
    simp [Variant.isNull]

/-- Witness for C9: reading a missing key from a writable single-source
cursor yields the default and leaves a Null child behind. -/
theorem Config.value_inserts_null_child_witness :
    Config.value ⟨[⟨[ConfigAtom.mapA false []], false⟩], [⟨false, false⟩]⟩ "k"
        (Variant.scalar "d") =
      some (Variant.scalar "d",
        ⟨[⟨[ConfigAtom.mapA false [("k", ConfigAtom.nullA false)]], false⟩],
         [⟨false, false⟩]⟩) :=
  (Config.value_inserts_null_child [] [] [] false [] [⟨false, false⟩] "k"
    (Variant.scalar "d") rfl rfl).1

theorem listErase_of_lookup_none (k : String) (es : List (String × ConfigAtom))
    (h : listLookup k es = none) : listErase k es = es := by
  induction es with
  | nil => rfl
  | cons p rest ih =>
    obtain ⟨k', v'⟩ := p
    by_cases hk : k' = k
    · simp [listLookup, hk] at h
    · simp only [listLookup, hk, if_false] at h
      simp [listErase, hk, ih h]

/-- Claim C10: implicit preconditions of `remove`.  Both overloads crash —
modelled as `none` — when the current level has no atoms (null-handle
dereference) and, on a successful removal, when the source list is empty
(`sources.first()` without the guard `setValue` has).  Under the
preconditions, a successful removal marks the first source dirty (others
untouched) and a failed removal (missing key / out-of-range index)
returns every source unchanged. -/
theorem Config.remove_preconditions_dirty :
    (∀ (ae : Bool) (rest : List ConfigLevel) (srcs : List SourceState) (name : String),
      Config.removeKey ⟨⟨[], ae⟩ :: rest, srcs⟩ name = none) ∧
    (∀ (rest : List ConfigLevel) (srcs : List SourceState) (i : Nat),
      Config.removeAt ⟨⟨[], false⟩ :: rest, srcs⟩ i = none) ∧
    (∀ (ro : Bool) (es : List (String × ConfigAtom)) (as : List ConfigAtom) (ae : Bool)
        (rest : List ConfigLevel) (s : SourceState) (ss : List SourceState) (name : String),
      (listLookup name es).isSome = true →
      Config.removeKey ⟨⟨ConfigAtom.mapA ro es :: as, ae⟩ :: rest, s :: ss⟩ name =
        some ⟨⟨ConfigAtom.mapA ro (listErase name es) :: as, ae⟩ :: rest,
              { s with dirty := true } :: ss⟩) ∧
    (∀ (ro : Bool) (es : List (String × ConfigAtom)) (as : List ConfigAtom) (ae : Bool)
        (rest : List ConfigLevel) (name : String),
      (listLookup name es).isSome = true →
      Config.removeKey ⟨⟨ConfigAtom.mapA ro es :: as, ae⟩ :: rest, []⟩ name = none) ∧
    (∀ (ro : Bool) (es : List (String × ConfigAtom)) (as : List ConfigAtom) (ae : Bool)
        (rest : List ConfigLevel) (srcs : List SourceState) (name : String),
      listLookup name es = none →
      Config.removeKey ⟨⟨ConfigAtom.mapA ro es :: as, ae⟩ :: rest, srcs⟩ name =
        some ⟨⟨ConfigAtom.mapA ro es :: as, ae⟩ :: rest, srcs⟩) ∧
    (∀ (ro : Bool) (xs : List ConfigAtom) (as : List ConfigAtom)
        (rest : List ConfigLevel) (s : SourceState) (ss : List SourceState) (i : Nat),
      i < xs.length →
      Config.removeAt ⟨⟨ConfigAtom.listA ro xs :: as, false⟩ :: rest, s :: ss⟩ i =
        some ⟨⟨ConfigAtom.listA ro (xs.take i ++ xs.drop (i + 1)) :: as, false⟩ :: rest,
              { s with dirty := true } :: ss⟩) ∧
    (∀ (ro : Bool) (xs : List ConfigAtom) (as : List ConfigAtom)
        (rest : List ConfigLevel) (i : Nat),
      i < xs.length →
      Config.removeAt ⟨⟨ConfigAtom.listA ro xs :: as, false⟩ :: rest, []⟩ i = none) ∧
    (∀ (ro : Bool) (xs : List ConfigAtom) (as : List ConfigAtom)
        (rest : List ConfigLevel) (srcs : List SourceState) (i : Nat),
      xs.length ≤ i →
      Config.removeAt ⟨⟨ConfigAtom.listA ro xs :: as, false⟩ :: rest, srcs⟩ i =
        some ⟨⟨ConfigAtom.listA ro xs :: as, false⟩ :: rest, srcs⟩) := by
  refine ⟨?_, ?_, ?_, ?_, ?_, ?_, ?_, ?_⟩
  · intro ae rest srcs name
    simp [Config.removeKey]
  · intro rest srcs i
    simp [Config.removeAt]
  · intro ro es as ae rest s ss name h
    simp [Config.removeKey, ConfigAtom.removeKey, h]
  · intro ro es as ae rest name h
    simp [Config.removeKey, ConfigAtom.removeKey, h]
  · intro ro es as ae rest srcs name h
    simp [Config.removeKey, ConfigAtom.removeKey, h, listErase_of_lookup_none name es h]
  · intro ro xs as rest s ss i h
    simp [Config.removeAt, ConfigAtom.removeIndex, Nat.not_le.mpr h]
  · intro ro xs as rest i h
    simp [Config.removeAt, ConfigAtom.removeIndex, Nat.not_le.mpr h]
  · intro ro xs as rest srcs i h
    simp [Config.removeAt, ConfigAtom.removeIndex, h]

/-- Witness for C10: removing a present key from a single-atom,
single-source cursor succeeds and dirties that source. -/
theorem Config.remove_preconditions_dirty_witness :
    Config.removeKey
        ⟨[⟨[ConfigAtom.mapA false [("k", ConfigAtom.nullA false)]], false⟩],
         [⟨false, false⟩]⟩ "k" =
      some ⟨[⟨[ConfigAtom.mapA false []], false⟩], [⟨true, false⟩]⟩ :=
  Config.remove_preconditions_dirty.2.2.1 false [("k", ConfigAtom.nullA false)] [] false []
    ⟨false, false⟩ [] "k" rfl
